import Mathlib

/-!
Shallow embedding of the clicycle terminal-output toolkit
(`src/clicycle/components/table.py`, `src/clicycle/components/spacer.py`,
and the spacing engine described by the specification), together with
theorems settling the specification's claims about the paginated table
state machine, the table body construction, and the spacing rules.

Conventions of the embedding:
* A rendered row (`Row`) is the association list of a Python dict whose
  values have already been passed through `str` — the table code only ever
  stringifies values, so cells are modelled directly as strings.  Python
  dicts have unique keys and preserve insertion order; `List (String × String)`
  with first-match lookup coincides with `dict.get` on such lists.
* Output to the Rich console is modelled as a trace of `Event`s: a table
  print, a footer line print, or a blank line.  Styling parameters
  (box style, border style, column widths, wrap/expand flags) are opaque
  theme pass-throughs that do not depend on the rows, so the table model
  keeps the semantic content: title, column headers and the cell matrix.
* `interactive_select` blocks for user input; it is modelled by an oracle
  list of choice values.  When the oracle is exhausted the loop is blocked
  waiting for input, and the trace contains everything emitted so far.
* A Python exception (the `ZeroDivisionError` raised by
  `math.ceil(len(data) / 0)` when `page_size` is `0`) is modelled by
  `Option`: `none` is a crash, `some trace` a normal run.
-/

namespace Clicycle

/-- One row of table data: the association list of a Python dict
(unique keys, insertion order preserved), values already stringified. -/
abbrev Row := List (String × String)

/-- Python `dict.get(key, "")`: the value at the first (unique) occurrence of
`key`, or `""` when the key is absent. -/
def rowGet (r : Row) (key : String) : String :=
  match r.find? (fun p => p.1 = key) with
  | some p => p.2
  | none => ""

/-- Python slice index normalisation for `xs[start:stop]` (step 1):
a negative index counts from the end, and the result is clamped to
`[0, len xs]`. -/
def pySliceIndex (n : Nat) (i : Int) : Nat :=
  if i < 0 then ((n : Int) + i).toNat else min i.toNat n

/-- Python list slice `xs[start:stop]` with step 1. -/
def pySlice {α : Type} (xs : List α) (start stop : Int) : List α :=
  (xs.take (pySliceIndex xs.length stop)).drop (pySliceIndex xs.length start)

/-- Semantic content of the Rich table built by `Table._build_table`:
title, column headers, and the matrix of stringified cells.  The
remaining `RichTable` arguments (box, border, styles, widths, wrap,
expand) are read-only theme/configuration pass-throughs. -/
structure RichTableModel where
  title : Option String
  columns : List String
  cells : List (List String)
deriving DecidableEq, Repr

/-- Model of `list(self.data[0].keys())`: the column list is taken from the first
row of the table's full data.  `_build_table` is only reached with
non-empty `data` (`Table.render` returns early on empty data), so the
`[]` case is unreachable from the render entry points. -/
def tableColumns (data : List Row) : List String :=
  match data with
  | [] => []
  | r :: _ => r.map Prod.fst

/-- Model of `Table._build_table(rows)`: columns come from `self.data[0]`, and each
row of `rows` contributes the cells `str(row.get(key, ""))` for each
column key in order. -/
def build_table (title : Option String) (data rows : List Row) : RichTableModel :=
  { title := title
    columns := tableColumns data
    cells := rows.map (fun r => (tableColumns data).map (fun k => rowGet r k)) }

/-- One observable console emission. -/
inductive Event where
  | table (t : RichTableModel)
  | footer (line : String)
  | blank
deriving DecidableEq, Repr

/-- Model of `math.ceil(L / P)` for natural `L` and positive natural `P`. -/
def totalPages (L P : Nat) : Nat := (L + P - 1) / P

/-- A choice offered to `interactive_select`: a display label and the
value returned when the user picks it. -/
structure NavOption where
  label : String
  value : String
deriving DecidableEq, Repr

/-- The options built by one iteration of `Table._render_paginated`:
`Next →` when `current_page < total_pages - 1`, then `← Previous` when
`current_page > 0`, then always `Done`. -/
def navOptions (cp tp : Int) : List NavOption :=
  (if cp < tp - 1 then [⟨"Next →", "next"⟩] else [])
    ++ (if 0 < cp then [⟨"← Previous", "previous"⟩] else [])
    ++ [⟨"Done", "done"⟩]

/-- The tail of the loop body: `"next"` increments `current_page`,
`"previous"` decrements it, anything else breaks out of the loop
(`none`). -/
def navStep (cp : Int) (choice : String) : Option Int :=
  if choice = "next" then some (cp + 1)
  else if choice = "previous" then some (cp - 1)
  else none

/-- The pages visited by the loop, starting at `cp`, when the user picks
the given choice values in order: every iteration visits its page; a
terminating choice (or an exhausted oracle, i.e. the loop blocked on
input) ends the list. -/
def navStates : Int → List String → List Int
  | cp, [] => [cp]
  | cp, c :: cs =>
    cp :: (match navStep cp c with
           | some cp' => navStates cp' cs
           | none => [])

/-- Each choice in the list is one of the option values offered at the
state where it is consumed; choices after a terminating one are not
consumed (the loop has exited). -/
def navValidFrom (tp : Int) : Int → List String → Bool
  | _, [] => true
  | cp, c :: cs =>
    decide (c ∈ (navOptions cp tp).map NavOption.value)
      && (match navStep cp c with
          | some cp' => navValidFrom tp cp' cs
          | none => cs.isEmpty)

/-- The footer line printed after each page:
`f"  Page {current_page + 1} of {total_pages} ({len(self.data)} items)"`
(note the two leading spaces in the source f-string). -/
def footerString (cp tp : Int) (L : Nat) : String :=
  "  Page " ++ toString (cp + 1) ++ " of " ++ toString tp
    ++ " (" ++ toString L ++ " items)"

/-- The two emissions of one loop iteration: the table built from
`self.data[start:end]` with `start = current_page * page_size`,
`end = start + page_size`, followed by its footer line. -/
def pageBlock (title : Option String) (data : List Row) (ps : Nat) (tp : Int)
    (cp : Int) : List Event :=
  [Event.table (build_table title data
      (pySlice data (cp * (ps : Int)) (cp * (ps : Int) + (ps : Int)))),
   Event.footer (footerString cp tp data.length)]

/-- Model of the `while True` loop of `Table._render_paginated`, driven by the
choice oracle: each iteration emits its page block, then consumes one
choice; `"next"`/`"previous"` continue at the new page, anything else
breaks; an exhausted oracle leaves the loop blocked after its emissions. -/
def paginatedLoop (title : Option String) (data : List Row) (ps : Nat)
    (tp : Int) : Int → List String → List Event
  | cp, [] => pageBlock title data ps tp cp
  | cp, c :: cs =>
    pageBlock title data ps tp cp
      ++ (match navStep cp c with
          | some cp' => paginatedLoop title data ps tp cp' cs
          | none => [])

/-- Model of `Table.render`: return immediately on empty data; print the single
full table when `page_size` is `None` or the data fits in one page;
otherwise `_render_paginated`, whose `math.ceil(len(self.data) / page_size)`
raises `ZeroDivisionError` when `page_size == 0` (modelled as `none`). -/
def render (title : Option String) (data : List Row) (ps : Option Nat)
    (choices : List String) : Option (List Event) :=
  if data = [] then some []
  else
    match ps with
    | none => some [Event.table (build_table title data data)]
    | some p =>
      if data.length ≤ p then some [Event.table (build_table title data data)]
      else if p = 0 then none
      else some (paginatedLoop title data p ((totalPages data.length p : Nat) : Int) 0 choices)

/-- Model of `Spacer.get_spacing_before`: returns `0` whatever the rendering
context (previous component kind and transient flag, or no previous
component at all) is. -/
def Spacer.get_spacing_before (_ctx : Option (String × Bool)) : Nat := 0

/-- Model of `Spacer.render`: `for _ in range(self.lines): console.print()` —
one blank line per loop iteration; `range(n)` is empty for `n <= 0`. -/
def Spacer.render (lines : Int) : List Event :=
  List.replicate lines.toNat Event.blank

/-- Modelled from the spec: the spacing engine
(`Component.get_spacing_before` of `clicycle/components/base.py` and the
`Theme.spacing` matrix of `clicycle/theme.py` are not in the sources
provided, only their tests).  Spec §4.1: return `0` when the current
element bypasses automatic spacing or there is no previous element;
otherwise look up `theme.spacing[previous_kind][current_kind]`, falling
back to the mandatory default; subtract `1`, floored at `0`, when the
previous element was transient. -/
def spacing_before (rules : String → String → Option Nat) (default : Nat)
    (previous_kind : Option String) (previous_was_transient : Bool)
    (current_kind : String) (current_bypasses : Bool) : Nat :=
  if current_bypasses then 0
  else
    match previous_kind with
    | none => 0
    | some pk =>
      let rule := (rules pk current_kind).getD default
      if previous_was_transient then rule - 1 else rule

end Clicycle


namespace Clicycle

/-- Helper: `"next"` is among the offered values exactly when the current
page is not the last one. -/
lemma next_mem_iff (cp tp : Int) :
    "next" ∈ (navOptions cp tp).map NavOption.value ↔ cp < tp - 1 := by
  by_cases h1 : cp < tp - 1 <;> by_cases h2 : 0 < cp <;>
    simp [navOptions, h1, h2]

/-- Helper: `"previous"` is among the offered values exactly when the
current page is not the first one. -/
lemma prev_mem_iff (cp tp : Int) :
    "previous" ∈ (navOptions cp tp).map NavOption.value ↔ 0 < cp := by
  by_cases h1 : cp < tp - 1 <;> by_cases h2 : 0 < cp <;>
    simp [navOptions, h1, h2]

/-- Helper: every page visited by a run of valid choices stays within the
page bounds. -/
lemma navValid_invariant (tp : Int) :
    ∀ (cs : List String) (cp : Int), 0 ≤ cp → cp < tp →
      navValidFrom tp cp cs = true →
      ∀ x ∈ navStates cp cs, 0 ≤ x ∧ x < tp := by
  intro cs
  induction cs with
  | nil =>
    intro cp h0 h1 _ x hx
    simp [navStates] at hx
    exact hx ▸ ⟨h0, h1⟩
  | cons c cs ih =>
    intro cp h0 h1 hv x hx
    by_cases hn : c = "next"
    · subst hn
      have hstep : navStep cp "next" = some (cp + 1) := by simp [navStep]
      simp only [navValidFrom, hstep, Bool.and_eq_true, decide_eq_true_eq] at hv
      have hlt : cp < tp - 1 := (next_mem_iff cp tp).mp hv.1
      simp only [navStates, hstep, List.mem_cons] at hx
      rcases hx with rfl | hx
      · exact ⟨h0, h1⟩
      · exact ih (cp + 1) (by omega) (by omega) hv.2 x hx
    · by_cases hp : c = "previous"
      · subst hp
        have hstep : navStep cp "previous" = some (cp - 1) := by simp [navStep]
        simp only [navValidFrom, hstep, Bool.and_eq_true, decide_eq_true_eq] at hv
        have hpos : 0 < cp := (prev_mem_iff cp tp).mp hv.1
        simp only [navStates, hstep, List.mem_cons] at hx
        rcases hx with rfl | hx
        · exact ⟨h0, h1⟩
        · exact ih (cp - 1) (by omega) (by omega) hv.2 x hx
      · have hstep : navStep cp c = none := by simp [navStep, hn, hp]
        simp only [navStates, hstep, List.mem_cons, List.not_mem_nil, or_false] at hx
        exact hx ▸ ⟨h0, h1⟩

/-- Helper: for positive `P` and `L`, the ceiling `(L + P - 1) / P`
equals `(L - 1) / P + 1`. -/
lemma totalPages_eq (L P : Nat) (hP : 0 < P) (hL : 0 < L) :
    totalPages L P = (L - 1) / P + 1 := by
  unfold totalPages
  have h : L + P - 1 = (L - 1) + P := by omega
  rw [h, Nat.add_div_right _ hP]

/-- Helper: the page count of a non-empty row set is positive. -/
lemma totalPages_pos (L P : Nat) (hP : 0 < P) (hL : 0 < L) :
    0 < totalPages L P := by
  rw [totalPages_eq L P hP hL]
  exact Nat.succ_pos _

/-- Helper: `totalPages L P` is the exact ceiling of `L / P`. -/
lemma totalPages_bounds (L P : Nat) (hP : 0 < P) (hL : 0 < L) :
    P * (totalPages L P - 1) < L ∧ L ≤ P * totalPages L P := by
  rw [totalPages_eq L P hP hL]
  have h1 : P * ((L - 1) / P) + (L - 1) % P = L - 1 := Nat.div_add_mod (L - 1) P
  have h2 : (L - 1) % P < P := Nat.mod_lt (L - 1) hP
  rw [Nat.add_sub_cancel, Nat.mul_add, Nat.mul_one]
  obtain ⟨m, hm⟩ : ∃ m, P * ((L - 1) / P) = m := ⟨_, rfl⟩
  rw [hm] at h1 ⊢
  omega

/-- Helper: the paginated loop's trace is the concatenation, over the
visited pages, of one table print followed by one footer print. -/
lemma paginatedLoop_eq_bind (title : Option String) (data : List Row)
    (ps : Nat) (tp : Int) :
    ∀ (cs : List String) (cp : Int),
      paginatedLoop title data ps tp cp cs
        = (navStates cp cs).flatMap (pageBlock title data ps tp) := by
  intro cs
  induction cs with
  | nil => intro cp; simp [paginatedLoop, navStates]
  | cons c cs ih =>
    intro cp
    cases h : navStep cp c with
    | some cp' => simp [paginatedLoop, navStates, h, ih]
    | none => simp [paginatedLoop, navStates, h]

/-- C1: in every paginated render (non-empty rows, `0 < page_size < len(rows)`)
and for every run of selections each drawn from the offered options, every
value taken by `current_page` satisfies `0 ≤ current_page < total_pages`,
where `total_pages = ceil(len(rows) / page_size)` (pinned as the exact
ceiling); selecting `next` increments the page, `previous` decrements it,
and any other value terminates the loop. -/
theorem pagination_loop_invariant (L P : Nat) (hP : 1 ≤ P) (hPL : P < L)
    (cs : List String)
    (hvalid : navValidFrom (totalPages L P : Int) 0 cs = true) :
    (∀ cp ∈ navStates 0 cs, 0 ≤ cp ∧ cp < (totalPages L P : Int))
    ∧ (∀ cp : Int, navStep cp "next" = some (cp + 1))
    ∧ (∀ cp : Int, navStep cp "previous" = some (cp - 1))
    ∧ (∀ (cp : Int) (c : String), c ≠ "next" → c ≠ "previous" →
        navStep cp c = none)
    ∧ P * (totalPages L P - 1) < L ∧ L ≤ P * totalPages L P := by
  have hL : 0 < L := lt_of_le_of_lt (Nat.zero_le P) hPL
  have htp : 0 < totalPages L P := totalPages_pos L P hP hL
  refine ⟨navValid_invariant _ cs 0 le_rfl (by exact_mod_cast htp) hvalid,
    fun cp => by simp [navStep],
    fun cp => by simp [navStep],
    fun cp c hc1 hc2 => by simp [navStep, hc1, hc2],
    totalPages_bounds L P hP hL⟩

/-- Witness for C1: five rows, page size two, user picks `next` then
`done`; the visited page `1` is within bounds. -/
theorem pagination_loop_invariant_witness :
    0 ≤ (1 : Int) ∧ (1 : Int) < (totalPages 5 2 : Int) :=
  (pagination_loop_invariant 5 2 (by decide) (by decide) ["next", "done"]
      (by decide)).1 1 (by decide)

end Clicycle


namespace Clicycle

/-- C3: the offered options — `next` iff not on the last page, `previous`
iff not on the first page, `Done` always offered and listed last, and the
option order is always a subsequence of `Next, Previous, Done`. -/
theorem pagination_options (cp tp : Int) :
    ("next" ∈ (navOptions cp tp).map NavOption.value ↔ cp < tp - 1)
    ∧ ("previous" ∈ (navOptions cp tp).map NavOption.value ↔ 0 < cp)
    ∧ (⟨"Done", "done"⟩ : NavOption) ∈ navOptions cp tp
    ∧ (navOptions cp tp).getLast? = some ⟨"Done", "done"⟩
    ∧ (navOptions cp tp).Sublist
        [⟨"Next →", "next"⟩, ⟨"← Previous", "previous"⟩, ⟨"Done", "done"⟩] := by
  refine ⟨next_mem_iff cp tp, prev_mem_iff cp tp, ?_, ?_, ?_⟩ <;>
    by_cases h1 : cp < tp - 1 <;> by_cases h2 : 0 < cp <;>
      simp [navOptions, h1, h2]

/-- C2 (amended): with non-empty rows, when `page_size` is `None` or all
rows fit in one page, `Table.render` prints the single full table exactly
once — no footer, no navigation prompt — whatever the choice oracle is. -/
theorem single_page_render (title : Option String) (data : List Row)
    (ps : Option Nat) (choices : List String) (hne : data ≠ [])
    (hfit : ps = none ∨ ∃ p, ps = some p ∧ data.length ≤ p) :
    render title data ps choices
      = some [Event.table (build_table title data data)] := by
  unfold render
  rcases hfit with rfl | ⟨p, rfl, hp⟩
  · simp [hne]
  · simp [hne, hp]

/-- Witness for C2: one row, `page_size = None`. -/
theorem single_page_render_witness :
    render none [[("a", "1")]] none []
      = some [Event.table (build_table none [[("a", "1")]] [[("a", "1")]])] :=
  single_page_render none [[("a", "1")]] none [] (by decide) (Or.inl rfl)

/-- Counterexample to C2 as stated: `page_size = 0` with a non-empty row
set does not mean "no pagination" — the pagination path is taken and
`math.ceil(len(data) / 0)` raises `ZeroDivisionError` (modelled `none`),
so no single page is rendered. -/
theorem single_page_render_counterexample :
    render none [[("a", "1")]] (some 0) [] = none
    ∧ render none [[("a", "1")]] (some 0) []
        ≠ some [Event.table (build_table none [[("a", "1")]] [[("a", "1")]])] := by
  decide

/-- C4 (amended): a paginated render is exactly, for each visited page,
the table built from `rows[current_page * page_size : (current_page + 1) *
page_size]` followed by exactly one footer line — and that footer is
`footerString`, i.e. `"  Page {current_page + 1} of {total_pages} ({len(rows)}
items)"`, the claimed literal text preceded by two spaces. -/
theorem pagination_footer_blocks (title : Option String) (data : List Row)
    (p : Nat) (choices : List String) (hp : 1 ≤ p) (hlen : p < data.length) :
    render title data (some p) choices
      = some ((navStates 0 choices).flatMap
          (pageBlock title data p (totalPages data.length p : Int))) := by
  have hne : data ≠ [] := by
    intro h
    rw [h] at hlen
    simp at hlen
  have hp0 : ¬ p = 0 := by omega
  unfold render
  simp [hne, Nat.not_le.mpr hlen, hp0,
    paginatedLoop_eq_bind title data p (totalPages data.length p : Int) choices 0]

/-- Witness for C4: three rows, page size two, user picks `done` at once. -/
theorem pagination_footer_blocks_witness :
    render none [[("k", "1")], [("k", "2")], [("k", "3")]] (some 2) ["done"]
      = some ((navStates 0 ["done"]).flatMap
          (pageBlock none [[("k", "1")], [("k", "2")], [("k", "3")]] 2
            (totalPages 3 2 : Int))) :=
  pagination_footer_blocks none [[("k", "1")], [("k", "2")], [("k", "3")]] 2
    ["done"] (by decide) (by decide)

/-- Counterexample to C4 as stated: the emitted footer line is
`"  Page 1 of 2 (3 items)"` — the claimed literal `"Page 1 of 2 (3 items)"`
never appears because the source f-string carries two leading spaces. -/
theorem pagination_footer_counterexample :
    Event.footer "  Page 1 of 2 (3 items)"
        ∈ (render none [[("k", "1")], [("k", "2")], [("k", "3")]] (some 2) []).getD []
    ∧ Event.footer "Page 1 of 2 (3 items)"
        ∉ (render none [[("k", "1")], [("k", "2")], [("k", "3")]] (some 2) []).getD [] := by
  decide

/-- C5 (amended): the page body built by the pagination path and the body
the non-pagination path builds from those same rows coincide whenever the
column list taken from the first row of the full data agrees with the one
taken from the first row of the page (e.g. whenever all rows share the
first row's key list).  In general the pagination path reads its columns
from `self.data[0]`, not from the page. -/
theorem body_path_agreement (title : Option String) (data : List Row)
    (ps : Nat) (cp : Int)
    (h : tableColumns data
        = tableColumns (pySlice data (cp * (ps : Int)) (cp * (ps : Int) + (ps : Int)))) :
    build_table title data
        (pySlice data (cp * (ps : Int)) (cp * (ps : Int) + (ps : Int)))
      = build_table title
          (pySlice data (cp * (ps : Int)) (cp * (ps : Int) + (ps : Int)))
          (pySlice data (cp * (ps : Int)) (cp * (ps : Int) + (ps : Int))) := by
  simp [build_table, h]

/-- Witness for C5: two rows with the same key, page size one, second
page: both paths build the body `[["2"]]` under columns `["a"]`. -/
theorem body_path_agreement_witness :
    build_table none [[("a", "1")], [("a", "2")]]
        (pySlice [[("a", "1")], [("a", "2")]] (1 * ((1 : Nat) : Int))
          (1 * ((1 : Nat) : Int) + ((1 : Nat) : Int)))
      = build_table none
          (pySlice [[("a", "1")], [("a", "2")]] (1 * ((1 : Nat) : Int))
            (1 * ((1 : Nat) : Int) + ((1 : Nat) : Int)))
          (pySlice [[("a", "1")], [("a", "2")]] (1 * ((1 : Nat) : Int))
            (1 * ((1 : Nat) : Int) + ((1 : Nat) : Int))) :=
  body_path_agreement none [[("a", "1")], [("a", "2")]] 1 1 (by decide)

/-- Counterexample to C5 as stated: rows `[{a: 1}, {b: 2}]` with page size
one.  The pagination path renders page `1` with columns `["a"]` and body
`[[""]]` (the columns come from the full data's first row), while the
non-pagination path on those same rows renders columns `["b"]` and body
`[["2"]]` — not byte-identical. -/
theorem body_path_counterexample :
    Event.table (build_table none [[("a", "1")], [("b", "2")]] [[("b", "2")]])
        ∈ (render none [[("a", "1")], [("b", "2")]] (some 1) ["next"]).getD []
    ∧ render none [[("b", "2")]] none []
        = some [Event.table (build_table none [[("b", "2")]] [[("b", "2")]])]
    ∧ build_table none [[("a", "1")], [("b", "2")]] [[("b", "2")]]
        ≠ build_table none [[("b", "2")]] [[("b", "2")]] := by
  decide

/-- C9: for non-empty data the columns are exactly the keys of the first
row in order; the cell row for any row is the first row's keys evaluated
by `row.get(key, "")`, so a first-row key missing from a row renders as
`""`, and two rows agreeing on the first-row keys render identically —
keys outside the first row's are silently dropped. -/
theorem table_columns_first_row (title : Option String) (r0 : Row)
    (rest rows : List Row) :
    (build_table title (r0 :: rest) rows).columns = r0.map Prod.fst
    ∧ (build_table title (r0 :: rest) rows).cells
        = rows.map (fun r => r0.map (fun p => rowGet r p.1))
    ∧ (∀ (r : Row) (k : String), k ∉ r.map Prod.fst → rowGet r k = "")
    ∧ (∀ r r' : Row, (∀ k ∈ r0.map Prod.fst, rowGet r k = rowGet r' k) →
        (build_table title (r0 :: rest) [r]).cells
          = (build_table title (r0 :: rest) [r']).cells) := by
  refine ⟨rfl, ?_, ?_, ?_⟩
  · simp [build_table, tableColumns, List.map_map]
  · intro r k hk
    have hnone : r.find? (fun p => p.1 = k) = none := by
      rw [List.find?_eq_none]
      intro p hp
      simp only [decide_eq_true_eq]
      intro h
      exact hk (h ▸ List.mem_map_of_mem Prod.fst hp)
    simp [rowGet, hnone]
  · intro r r' hagree
    simp only [build_table, tableColumns, List.map_cons, List.map_nil,
      List.cons.injEq, and_true]
    exact List.map_congr_left fun k hk => hagree k hk

/-- Witness for C9: a single-column table over key `a`; a row carrying
only key `x` renders the `a` cell as `""`. -/
theorem table_columns_first_row_witness :
    (build_table none ([("a", "1")] :: []) [[("x", "9")]]).columns
        = [("a", "1")].map Prod.fst
    ∧ rowGet [("x", "9")] "a" = "" :=
  ⟨(table_columns_first_row none [("a", "1")] [] [[("x", "9")]]).1,
   (table_columns_first_row none [("a", "1")] [] [[("x", "9")]]).2.2.1
      [("x", "9")] "a" (by decide)⟩

/-- C8: rendering a table with zero rows emits no console output at all,
whatever the page size and choice oracle are. -/
theorem empty_table_renders_nothing (title : Option String) (ps : Option Nat)
    (choices : List String) : render title [] ps choices = some [] := by
  simp [render]

/-- C7: the explicit spacer bypasses automatic spacing — its
`get_spacing_before` is `0` for every context, previous element or none. -/
theorem spacer_spacing_before_zero (ctx : Option (String × Bool)) :
    Spacer.get_spacing_before ctx = 0 := rfl

/-- C10: the spacer emits exactly `lines` blank lines (and nothing else)
when `lines ≥ 0`, and nothing at all when `lines ≤ 0`. -/
theorem spacer_render_lines (lines : Int) :
    (0 ≤ lines → ((Spacer.render lines).length : Int) = lines
        ∧ ∀ e ∈ Spacer.render lines, e = Event.blank)
    ∧ (lines ≤ 0 → Spacer.render lines = []) := by
  constructor
  · intro h
    constructor
    · simp [Spacer.render]
      omega
    · intro e he
      simp [Spacer.render, List.mem_replicate] at he
      exact he.2
  · intro h
    have h0 : lines.toNat = 0 := by omega
    simp [Spacer.render, h0]

/-- Witness for C10: three blank lines for `lines = 3`, nothing for
`lines = -1`. -/
theorem spacer_render_lines_witness :
    (((Spacer.render 3).length : Int) = 3 ∧ ∀ e ∈ Spacer.render 3, e = Event.blank)
    ∧ Spacer.render (-1) = [] :=
  ⟨(spacer_render_lines 3).1 (by decide), (spacer_render_lines (-1)).2 (by decide)⟩

/-- C6: when the previous element was transient and the current one does
not bypass automatic spacing, the spacing is `max 0 (rule - 1)` where
`rule` is the matrix entry for the pair, or the default when absent. -/
theorem spacing_transient_reduction (rules : String → String → Option Nat)
    (default : Nat) (pk ck : String) :
    (spacing_before rules default (some pk) true ck false : Int)
      = max 0 (((rules pk ck).getD default : Int) - 1) := by
  show ((((rules pk ck).getD default) - 1 : Nat) : Int)
      = max 0 (((rules pk ck).getD default : Int) - 1)
  generalize (rules pk ck).getD default = r
  omega

end Clicycle
